import Mathlib

/-!
# WriteWise (KI-Feedback-System für Hausarbeiten) — verification of the spec

Shallow embedding of the document-handling core of the repository
(`app.py`, `main.py`): text extraction from PDF/DOCX/TXT, content
validation, the evaluation fallback, the on-disk result store and the
plain-text exporter.  Python strings are modelled as lists of characters
(`PyStr`); the byte level only appears for the strict UTF-8 decode of TXT
uploads.
-/

set_option maxRecDepth 100000

/-- Python strings, modelled as lists of Unicode characters
(`len`, slicing and `+` on Python `str` become `List.length`,
`List.take` and `++`). -/
abbrev PyStr := List Char

/-- A Lean string literal as a `PyStr`. -/
def str (s : String) : PyStr := s.data

/-- The newline character, as a one-character string. -/
def nl : PyStr := str "\n"

/-- The ASCII characters Python treats as whitespace in `str.strip` and
`str.split` (the inputs at issue contain no further Unicode spaces). -/
def pyIsSpace (c : Char) : Bool :=
  c = ' ' || c = '\t' || c = '\n' || c = '\r' || c = '\x0b' || c = '\x0c'

/-- Python `str.strip()`: drop leading and trailing whitespace. -/
def pyStrip (s : PyStr) : PyStr :=
  ((s.dropWhile pyIsSpace).reverse.dropWhile pyIsSpace).reverse

/-- Helper for `pySplit`: accumulates the current word (reversed). -/
def pySplitAux : PyStr → PyStr → List PyStr
  | [], acc => if acc.isEmpty then [] else [acc.reverse]
  | c :: cs, acc =>
    if pyIsSpace c then
      if acc.isEmpty then pySplitAux cs [] else acc.reverse :: pySplitAux cs []
    else
      pySplitAux cs (c :: acc)

/-- Python `str.split()` with no argument: split on runs of whitespace,
discarding empty words. -/
def pySplit (s : PyStr) : List PyStr := pySplitAux s []

/-- `validate_text_content` (`app.py`): returns the list of validation
issues; empty list means the text is valid.  Mirrors the three
independent checks — `not text or len(text.strip()) < 50`,
`len(text) > 20000`, `len(text.split()) < 10` — and their append
order. -/
def validate_text_content (text : PyStr) : List PyStr :=
  (if text = [] ∨ (pyStrip text).length < 50 then
    [str "Text zu kurz (mindestens 50 Zeichen erforderlich)"] else []) ++
  (if 20000 < text.length then
    [str "Text zu lang (maximal 20.000 Zeichen)"] else []) ++
  (if (pySplit text).length < 10 then
    [str "Text enthält zu wenige Wörter für sinnvolle Analyse"] else [])

/-- The user-facing validation error message built in `analyze_text`
(`app.py`): the issues joined with a semicolon separator. -/
def validation_error_message (issues : List PyStr) : PyStr :=
  str "Textvalidierung fehlgeschlagen: " ++ (issues.intersperse (str "; ")).flatten

/-!
## Extraction (`extract_text_from_file`, `app.py`)

The PDF branch appends `page.extract_text() + "\n"` for every page of
the reader; the DOCX branch appends `paragraph.text + "\n"` for every
paragraph of the document.  Both are modelled over the list of page /
paragraph texts the underlying library yields. -/

/-- The PDF branch of `extract_text_from_file` (`app.py`): the pages'
extracted texts, each followed by a newline, concatenated in page
order. -/
def extract_text_pdf (pages : List PyStr) : PyStr :=
  (pages.map (fun p => p ++ nl)).flatten

/-- The DOCX branch of `extract_text_from_file` (`app.py`): the
paragraphs' texts, each followed by a newline, concatenated in document
order. -/
def extract_text_docx (paragraphs : List PyStr) : PyStr :=
  (paragraphs.map (fun p => p ++ nl)).flatten

/-- Helper for the spec's PDF extraction: remove end-of-line hyphenation
(a hyphen immediately followed by a line break; both are dropped). -/
def dehyphenate : PyStr → PyStr
  | '-' :: '\n' :: rest => dehyphenate rest
  | c :: rest => c :: dehyphenate rest
  | [] => []

/-- Helper for `collapseWhitespace`, carrying whether the previous
input position was inside a whitespace run. -/
def collapseWsAux : PyStr → Bool → PyStr
  | [], _ => []
  | c :: rest, prevWs =>
    if pyIsSpace c then
      if prevWs then collapseWsAux rest true else ' ' :: collapseWsAux rest true
    else c :: collapseWsAux rest false

/-- Helper for the spec's PDF extraction: collapse each run of
whitespace to a single space. -/
def collapseWhitespace (s : PyStr) : PyStr := collapseWsAux s false

/-- The per-page clean-up spec §4.1 prescribes for PDF extraction:
dehyphenate, collapse whitespace, trim. -/
def cleanPageSpec (p : PyStr) : PyStr := pyStrip (collapseWhitespace (dehyphenate p))

/-- PDF extraction as spec §4.1 words it (for comparison with
`extract_text_pdf`): clean each page, skip pages whose cleaned text is
empty, prefix each survivor with `"[SEITE <n>]"` (1-based page index)
and join the survivors with a blank line. -/
def extract_text_pdf_spec (pages : List PyStr) : PyStr :=
  List.intercalate (str "\n\n")
    (pages.enum.filterMap (fun pr =>
      let c := cleanPageSpec pr.2
      if c.isEmpty then none
      else some (str "[SEITE " ++ str (toString (pr.1 + 1)) ++ str "] " ++ c)))

/-- DOCX extraction as spec §4.1 words it (for comparison with
`extract_text_docx`): the paragraph texts with empty paragraphs skipped
entirely, joined by newline separators. -/
def extract_text_docx_spec (paragraphs : List PyStr) : PyStr :=
  List.intercalate nl (paragraphs.filter (fun p => !p.isEmpty))

/-!
## TXT extraction (`file.read().decode('utf-8')`, `app.py`)

The TXT branch decodes the raw bytes with Python's default *strict*
UTF-8 decoder: any undecodable byte sequence raises `UnicodeDecodeError`.
Modelled as a byte-list to code-point-list decoder returning `none` on
the first invalid sequence, following the UTF-8 validity rules Python
enforces (continuation ranges, no overlong forms, no surrogates,
nothing above U+10FFFF). -/

/-- Is `b` a UTF-8 continuation byte (`0x80..0xBF`)? -/
def isCont (b : Nat) : Bool := 0x80 ≤ b && b ≤ 0xBF

/-- Allowed range of the first continuation byte of a 3-byte sequence
with leading byte `b` (excludes overlong forms and surrogates). -/
def cont3First (b c : Nat) : Bool :=
  if b = 0xE0 then 0xA0 ≤ c && c ≤ 0xBF
  else if b = 0xED then 0x80 ≤ c && c ≤ 0x9F
  else isCont c

/-- Allowed range of the first continuation byte of a 4-byte sequence
with leading byte `b` (excludes overlong forms and code points above
U+10FFFF). -/
def cont4First (b c : Nat) : Bool :=
  if b = 0xF0 then 0x90 ≤ c && c ≤ 0xBF
  else if b = 0xF4 then 0x80 ≤ c && c ≤ 0x8F
  else isCont c

/-- One UTF-8 sequence: given the lead byte `b` and the remaining
bytes, return the decoded code point and the number of continuation
bytes consumed, or `none` when the sequence is invalid. -/
def utf8Head (b : Nat) (bs : List Nat) : Option (Nat × Nat) :=
  if b < 0x80 then some (b, 0)
  else if b < 0xC2 then none
  else if b ≤ 0xDF then
    match bs with
    | c1 :: _ => if isCont c1 then some ((b - 0xC0) * 0x40 + (c1 - 0x80), 1) else none
    | [] => none
  else if b ≤ 0xEF then
    match bs with
    | c1 :: c2 :: _ =>
      if cont3First b c1 && isCont c2 then
        some ((b - 0xE0) * 0x1000 + (c1 - 0x80) * 0x40 + (c2 - 0x80), 2)
      else none
    | _ => none
  else if b ≤ 0xF4 then
    match bs with
    | c1 :: c2 :: c3 :: _ =>
      if cont4First b c1 && isCont c2 && isCont c3 then
        some ((b - 0xF0) * 0x40000 + (c1 - 0x80) * 0x1000 +
          (c2 - 0x80) * 0x40 + (c3 - 0x80), 3)
      else none
    | _ => none
  else none

/-- The decoding loop, structurally recursive on a fuel bound; each
step consumes the lead byte plus `k` continuation bytes.  Fuel at least
the byte count always suffices, so the `0` case below is unreachable
from `decodeUtf8`. -/
def decodeUtf8Fuel : Nat → List Nat → Option (List Nat)
  | _, [] => some []
  | 0, _ :: _ => none
  | fuel + 1, b :: bs =>
    match utf8Head b bs with
    | none => none
    | some (cp, k) => (decodeUtf8Fuel fuel (bs.drop k)).map (fun r => cp :: r)

/-- Strict UTF-8 decoding of a byte list into code points, `none` when
any byte sequence is undecodable — the behaviour of Python's
`bytes.decode('utf-8')` (modulo raising vs returning `none`). -/
def decodeUtf8 (l : List Nat) : Option (List Nat) := decodeUtf8Fuel l.length l

/-!
## Feedback payloads (`main.py` / `app.py`)

The feedback travelling through the app is a Python dict from category
names to either a list of strings, a single string, or `None` (the
optional `overall_summary`).  Modelled as an ordered association list,
matching Python dict insertion order, with a value sum type. -/

/-- A value in a feedback dict: a list of strings, a single string, or
Python's `None`. -/
inductive FV where
  | strs (l : List PyStr)
  | strv (s : PyStr)
  | null
deriving DecidableEq

/-- A feedback payload: an insertion-ordered dict from category names to
values. -/
abbrev Feedback := List (PyStr × FV)

/-- Python `dict.keys()` in insertion order. -/
def dictKeys (f : Feedback) : List PyStr := f.map (fun kv => kv.1)

/-- Python `dict.get(k)` without a default: the first value bound to
`k`, if any. -/
def dictFind (f : Feedback) (k : PyStr) : Option FV :=
  (f.find? (fun kv => kv.1 == k)).map (fun kv => kv.2)

/-- Python `feedback.get(k, [])` followed by iteration, as the export
routines do: a list value iterates its entries; a string value iterates
its characters; a missing key contributes the default `[]`.
(`None` under a list-valued key never occurs in payloads the app
builds.) -/
def dictGetList (f : Feedback) (k : PyStr) : List PyStr :=
  match dictFind f k with
  | some (FV.strs l) => l
  | some (FV.strv s) => s.map (fun c => [c])
  | _ => []

/-- Python `feedback.get('overall_summary', '')` rendered into an
f-string, as `export_txt` does: a string renders itself, `None` renders
as `"None"`, a missing key as the default `""`. -/
def dictGetSummary (f : Feedback) : PyStr :=
  match dictFind f (str "overall_summary") with
  | some (FV.strv s) => s
  | some FV.null => str "None"
  | _ => []

/-- The structured response of the evaluation collaborator
(`FeedbackResponse`, `main.py`): three string lists and an optional
summary. -/
structure FeedbackResponse where
  language_feedback : List PyStr
  structure_feedback : List PyStr
  argumentation_feedback : List PyStr
  overall_summary : Option PyStr
deriving DecidableEq

/-- The dict `analyze_hausarbeit` builds from a successful collaborator
response (`main.py`). -/
def feedback_dict_of (r : FeedbackResponse) : Feedback :=
  [(str "language_feedback", FV.strs r.language_feedback),
   (str "structure_feedback", FV.strs r.structure_feedback),
   (str "argumentation_feedback", FV.strs r.argumentation_feedback),
   (str "overall_summary",
     match r.overall_summary with
     | some s => FV.strv s
     | none => FV.null)]

/-- `analyze_hausarbeit` (`main.py`), with the external LLM chain call
made explicit as its outcome: on success the response is converted to a
dict; on failure the `except` block swallows the error and returns the
local fallback payload built from the error message. -/
def analyze_hausarbeit (outcome : Except PyStr FeedbackResponse) : Feedback :=
  match outcome with
  | Except.ok r => feedback_dict_of r
  | Except.error e =>
    [(str "language_feedback", FV.strs [str "Analyse fehlgeschlagen: " ++ e]),
     (str "structure_feedback", FV.strs []),
     (str "argumentation_feedback", FV.strs []),
     (str "overall_summary", FV.strv (str "Fehler bei der Analyse"))]

/-!
## Result store (`save_feedback`, `app.py`; loaded by the export routes)

`save_feedback` writes one JSON record to `results/<result_id>.json`
where `result_id` is the current timestamp formatted `%Y%m%d_%H%M%S`;
the export routes read the record back by id.  The filesystem directory
is modelled as an association list with the newest record in front (an
overwrite shadows an older same-id record, as a truncating reopen does
on disk); JSON round-tripping of the string/list/bool/int fields is the
identity and is elided. -/

/-- One persisted result record (`result_data` in `save_feedback`). -/
structure ResultData where
  id : PyStr
  timestamp : PyStr
  text_preview : PyStr
  text_length : Nat
  file_used : Bool
  feedback : Feedback
  analysis_categories : List PyStr
deriving DecidableEq

/-- The `results/` directory: records addressable by id, newest
first. -/
abbrev Store := List (PyStr × ResultData)

/-- `save_feedback` (`app.py`): build the record — preview, preview
length, flag, payload, `list(feedback.keys())` — file it under the
timestamp-derived id and return that id.  `now_id` and `now_iso` are
the two clock readings the function takes (`strftime` and
`isoformat`). -/
def save_feedback (store : Store) (now_id now_iso : PyStr)
    (feedback : Feedback) (text_preview : PyStr) (file_used : Bool) :
    PyStr × Store :=
  let result_id := now_id
  let record : ResultData :=
    { id := result_id
      timestamp := now_iso
      text_preview := text_preview
      text_length := text_preview.length
      file_used := file_used
      feedback := feedback
      analysis_categories := dictKeys feedback }
  (result_id, (result_id, record) :: store)

/-- Reading `results/<id>.json` back, as the export routes do: the
record stored under `id`, or `none` (the `Ergebnis nicht gefunden`
branch). -/
def load_result (store : Store) (id : PyStr) : Option ResultData :=
  (store.find? (fun kv => kv.1 == id)).map (fun kv => kv.2)

/-!
## Plain-text export (`export_txt`, `app.py`) -/

/-- The bulleted lines a feedback category renders to
(`f"• {item}\n"` per entry). -/
def bullets (items : List PyStr) : PyStr :=
  (items.map (fun i => str "• " ++ i ++ nl)).flatten

/-- The `txt_content` string `export_txt` (`app.py`) builds from a
loaded record: header, separator, preview, then the three category
sections and the summary. -/
def export_txt_content (d : ResultData) : PyStr :=
  str "WriteWise Feedback - " ++ d.timestamp ++ nl ++
  List.replicate 50 '=' ++ str "\n\n" ++
  str "Textvorschau: " ++ d.text_preview ++ str "\n\n" ++
  str "SPRACHLICHES FEEDBACK:\n" ++
    bullets (dictGetList d.feedback (str "language_feedback")) ++
  str "\nSTRUKTUR-FEEDBACK:\n" ++
    bullets (dictGetList d.feedback (str "structure_feedback")) ++
  str "\nARGUMENTATION:\n" ++
    bullets (dictGetList d.feedback (str "argumentation_feedback")) ++
  str "\nZUSAMMENFASSUNG:\n" ++ dictGetSummary d.feedback ++ nl

/-- Number of positions of `s` at which `pat` occurs as a substring. -/
def countOcc (pat s : PyStr) : Nat :=
  (List.range (s.length + 1)).countP (fun i => pat.isPrefixOf (s.drop i))

/-- Position of the first occurrence of `pat` in `s`
(`s.length + 1` when there is none). -/
def firstOccIdx (pat s : PyStr) : Nat :=
  ((List.range (s.length + 1)).filter (fun i => pat.isPrefixOf (s.drop i))).headD
    (s.length + 1)

/-- A stored record with the spec's test feedback `["A"] / ["B"] /
["C"] / "D"` and neutral metadata. -/
def sampleRecord : ResultData :=
  { id := str "20240101_000000"
    timestamp := str "T"
    text_preview := str "P"
    text_length := 1
    file_used := false
    feedback :=
      [(str "language_feedback", FV.strs [str "A"]),
       (str "structure_feedback", FV.strs [str "B"]),
       (str "argumentation_feedback", FV.strs [str "C"]),
       (str "overall_summary", FV.strv (str "D"))]
    analysis_categories :=
      [str "language_feedback", str "structure_feedback",
       str "argumentation_feedback", str "overall_summary"] }

/-!
## The `/analyze` route (`analyze_text`, `app.py`) -/

/-- The success JSON of `/analyze` (`app.py`), minus the constant
fields. -/
structure AnalyzeResponse where
  feedback : Feedback
  result_id : PyStr
  file_used : Bool
  text_length : Nat
  timestamp : PyStr
deriving DecidableEq

/-- The tail of `analyze_text` (`app.py`) on a validated text: save the
feedback with the preview `text[:200]`, then answer with the full
text's length.  `now_id` and `now_iso` are the clock readings inside
`save_feedback`, `now_iso2` the one in the response. -/
def analyze_respond (store : Store) (now_id now_iso now_iso2 : PyStr)
    (text : PyStr) (feedback : Feedback) (file_used : Bool) :
    AnalyzeResponse × Store :=
  let rs := save_feedback store now_id now_iso feedback (text.take 200) file_used
  ({ feedback := feedback
     result_id := rs.1
     file_used := file_used
     text_length := text.length
     timestamp := now_iso2 }, rs.2)

/-!
## Structurer (chapter tagging)

The Structurer of spec §4.2 has no implementation among the provided
sources (`app.py` hands extracted text straight to validation); it is
modelled from the spec's §4.2 algorithm. -/

/-- Modelled from the spec: splitting a text into lines at `"\n"`
(missing source: the Structurer's line splitting, §4.2). -/
def splitLinesAux : PyStr → PyStr → List PyStr
  | [], acc => [acc.reverse]
  | c :: cs, acc =>
    if c = '\n' then acc.reverse :: splitLinesAux cs []
    else splitLinesAux cs (c :: acc)

/-- Modelled from the spec: the lines of a text (missing source: the
Structurer, §4.2). -/
def splitLines (s : PyStr) : List PyStr := splitLinesAux s []

/-- Modelled from the spec: consume `('.' digits+)*` after the leading
digit run of a heading number (missing source: the Structurer's heading
pattern, §4.2).  Fuel-bounded; fuel at least the input length
suffices. -/
def grabDots : Nat → PyStr → PyStr × PyStr
  | 0, l => ([], l)
  | fuel + 1, l =>
    match l with
    | '.' :: rest =>
      let p := rest.span Char.isDigit
      if p.1.isEmpty then ([], l)
      else
        let q := grabDots fuel p.2
        ('.' :: p.1 ++ q.1, q.2)
    | _ => ([], l)

/-- Modelled from the spec: match the heading pattern anchored at line
start — one or more dot-separated positive integers, required
whitespace, the remainder as title — and return the new current chapter
`"<number> <title>"` (missing source: the Structurer, §4.2). -/
def parseHeading (line : PyStr) : Option PyStr :=
  let p := line.span Char.isDigit
  if p.1.isEmpty then none
  else
    let q := grabDots line.length p.2
    let w := q.2.span pyIsSpace
    if w.1.isEmpty then none
    else some (p.1 ++ q.1 ++ [' '] ++ w.2)

/-- Modelled from the spec: the single left-to-right pass of the
Structurer carrying the current chapter, dropping blank lines, emitting
a standalone marker line per heading and prefixing body lines with the
current chapter's marker (missing source: the Structurer, §4.2). -/
def strukturiere_go : List PyStr → PyStr → List PyStr
  | [], _ => []
  | line :: rest, current =>
    if (pyStrip line).isEmpty then strukturiere_go rest current
    else
      match parseHeading line with
      | some ch =>
        (str "[KAPITEL: " ++ ch ++ str "]") :: strukturiere_go rest ch
      | none =>
        (str "[KAPITEL: " ++ current ++ str "] " ++ line) ::
          strukturiere_go rest current

/-- Modelled from the spec: the Structurer (missing source: §4.2) —
chapter-tag a multi-line text, the current chapter initialized to the
sentinel `"Unbekannt"`, and join the emitted lines with newlines. -/
def strukturiere_text (text : PyStr) : PyStr :=
  List.intercalate nl (strukturiere_go (splitLines text) (str "Unbekannt"))

/-!
## Auxiliary lemmas -/

example : validate_text_content (str "abcdefghij") =
    [str "Text zu kurz (mindestens 50 Zeichen erforderlich)",
     str "Text enthält zu wenige Wörter für sinnvolle Analyse"] := by decide

example : extract_text_pdf [str "Seite eins"] = str "Seite eins\n" := by decide

example : extract_text_pdf_spec [str "infor-\nmation", str "", str "x"] =
    str "[SEITE 1] information\n\n[SEITE 3] x" := by decide

example : extract_text_docx [str "a", str "", str "b"] = str "a\n\nb\n" := by decide

example : decodeUtf8 [0x61, 0xC3, 0xA4] = some [0x61, 0xE4] := by decide

example : decodeUtf8 [0xE2, 0x82, 0xAC] = some [0x20AC] := by decide

example : decodeUtf8 [0xED, 0xA0, 0x80] = none := by decide

example : decodeUtf8 [0xC0, 0x80] = none := by decide

example : countOcc (str "ab") (str "cabab") = 2 := by decide

example : firstOccIdx (str "ab") (str "cabab") = 1 := by decide

/-- Shared shape lemma: appending a newline to every block and
concatenating equals joining the blocks with newline separators plus a
trailing newline, for a non-empty block list. -/
theorem flatten_map_append_nl (l : List PyStr) (h : l ≠ []) :
    (l.map (fun p => p ++ nl)).flatten = List.intercalate nl l ++ nl := by
  induction l with
  | nil => cases h rfl
  | cons a t ih =>
    cases t with
    | nil => simp [List.intercalate, List.intersperse]
    | cons b t' =>
      have ht : b :: t' ≠ [] := by simp
      have := ih ht
      simp only [List.map_cons, List.flatten_cons] at this ⊢
      rw [this]
      simp [List.intercalate, List.intersperse]

theorem isCont_le {c : Nat} (h : isCont c = true) : c ≤ 0xBF := by
  simp [isCont] at h; omega

theorem cont3First_le {b c : Nat} (h : cont3First b c = true) : c ≤ 0xBF := by
  unfold cont3First at h
  split at h
  · simp at h; omega
  · split at h
    · simp at h; omega
    · exact isCont_le h

theorem cont4First_le {b c : Nat} (h : cont4First b c = true) : c ≤ 0xBF := by
  unfold cont4First at h
  split at h
  · simp at h; omega
  · split at h
    · simp at h; omega
    · exact isCont_le h

/-- `0xFF` can never begin a UTF-8 sequence. -/
theorem utf8Head_ff (bs : List Nat) : utf8Head 0xFF bs = none := by
  simp [utf8Head]

/-- The continuation bytes a successful `utf8Head` consumes all lie in
`0x80..0xBF`, so `0xFF` is never among them. -/
theorem utf8Head_take {b : Nat} {bs : List Nat} {cp k : Nat}
    (h : utf8Head b bs = some (cp, k)) : 0xFF ∉ bs.take k := by
  unfold utf8Head at h
  split at h
  · simp only [Option.some.injEq, Prod.mk.injEq] at h
    obtain ⟨-, h2⟩ := h; subst h2; simp
  · split at h
    · exact absurd h (by simp)
    · split at h
      · split at h
        · split at h
          · rename_i c1 rest hc
            simp only [Option.some.injEq, Prod.mk.injEq] at h
            obtain ⟨-, h2⟩ := h; subst h2
            have := isCont_le hc
            simp; omega
          · exact absurd h (by simp)
        · exact absurd h (by simp)
      · split at h
        · split at h
          · split at h
            · rename_i c1 c2 rest hc
              simp only [Bool.and_eq_true] at hc
              simp only [Option.some.injEq, Prod.mk.injEq] at h
              obtain ⟨-, h2⟩ := h; subst h2
              have h1 := cont3First_le hc.1
              have h2 := isCont_le hc.2
              simp [List.take]; omega
            · exact absurd h (by simp)
          · exact absurd h (by simp)
        · split at h
          · split at h
            · split at h
              · rename_i c1 c2 c3 rest hc
                simp only [Bool.and_eq_true] at hc
                simp only [Option.some.injEq, Prod.mk.injEq] at h
                obtain ⟨-, h2⟩ := h; subst h2
                have h1 := cont4First_le hc.1.1
                have h2 := isCont_le hc.1.2
                have h3 := isCont_le hc.2
                simp [List.take]; omega
              · exact absurd h (by simp)
            · exact absurd h (by simp)
          · exact absurd h (by simp)

/-- Any byte list containing `0xFF` fails strict UTF-8 decoding,
whatever the fuel. -/
theorem decodeUtf8Fuel_ff :
    ∀ (fuel : Nat) (bs : List Nat), 0xFF ∈ bs → decodeUtf8Fuel fuel bs = none := by
  intro fuel
  induction fuel with
  | zero =>
    intro bs hm
    cases bs with
    | nil => cases hm
    | cons b t => rfl
  | succ n ih =>
    intro bs hm
    cases bs with
    | nil => cases hm
    | cons b t =>
      rcases List.mem_cons.mp hm with hb | ht
      · subst hb
        simp [decodeUtf8Fuel, utf8Head_ff]
      · cases hh : utf8Head b t with
        | none => simp [decodeUtf8Fuel, hh]
        | some pr =>
          obtain ⟨cp, k⟩ := pr
          have hnot := utf8Head_take hh
          have hdrop : 0xFF ∈ t.drop k := by
            have hm2 : 0xFF ∈ t.take k ++ t.drop k := by
              rw [List.take_append_drop]; exact ht
            rcases List.mem_append.mp hm2 with h | h
            · exact absurd h hnot
            · exact h
          simp [decodeUtf8Fuel, hh, ih _ hdrop]

/-- Any byte list containing `0xFF` fails strict UTF-8 decoding. -/
theorem decodeUtf8_ff {bs : List Nat} (h : 0xFF ∈ bs) : decodeUtf8 bs = none :=
  decodeUtf8Fuel_ff _ _ h

/-- Membership in a conditional singleton list. -/
theorem mem_ite_singleton {c : Prop} [Decidable c] {m x : PyStr} :
    (x ∈ if c then [m] else ([] : List PyStr)) ↔ c ∧ x = m := by
  split
  · simp_all
  · simp_all

/-- The short-text issue appears exactly when the first check fires. -/
theorem mem_validate_short (t : PyStr) :
    str "Text zu kurz (mindestens 50 Zeichen erforderlich)" ∈ validate_text_content t ↔
      (t = [] ∨ (pyStrip t).length < 50) := by
  have h2 : ¬ (str "Text zu kurz (mindestens 50 Zeichen erforderlich)" =
      str "Text zu lang (maximal 20.000 Zeichen)") := by decide
  have h3 : ¬ (str "Text zu kurz (mindestens 50 Zeichen erforderlich)" =
      str "Text enthält zu wenige Wörter für sinnvolle Analyse") := by decide
  simp [validate_text_content, mem_ite_singleton, h2, h3]

/-- The long-text issue appears exactly when the raw length exceeds
20,000 characters. -/
theorem mem_validate_long (t : PyStr) :
    str "Text zu lang (maximal 20.000 Zeichen)" ∈ validate_text_content t ↔
      20000 < t.length := by
  have h1 : ¬ (str "Text zu lang (maximal 20.000 Zeichen)" =
      str "Text zu kurz (mindestens 50 Zeichen erforderlich)") := by decide
  have h3 : ¬ (str "Text zu lang (maximal 20.000 Zeichen)" =
      str "Text enthält zu wenige Wörter für sinnvolle Analyse") := by decide
  simp [validate_text_content, mem_ite_singleton, h1, h3]

/-- The too-few-words issue appears exactly when the word count is
below 10. -/
theorem mem_validate_few (t : PyStr) :
    str "Text enthält zu wenige Wörter für sinnvolle Analyse" ∈ validate_text_content t ↔
      (pySplit t).length < 10 := by
  have h1 : ¬ (str "Text enthält zu wenige Wörter für sinnvolle Analyse" =
      str "Text zu kurz (mindestens 50 Zeichen erforderlich)") := by decide
  have h2 : ¬ (str "Text enthält zu wenige Wörter für sinnvolle Analyse" =
      str "Text zu lang (maximal 20.000 Zeichen)") := by decide
  simp [validate_text_content, mem_ite_singleton, h1, h2]

/-- Stripping never lengthens a string. -/
theorem pyStrip_length_le (t : PyStr) : (pyStrip t).length ≤ t.length := by
  unfold pyStrip
  calc (((t.dropWhile pyIsSpace).reverse.dropWhile pyIsSpace).reverse).length
      = ((t.dropWhile pyIsSpace).reverse.dropWhile pyIsSpace).length :=
        List.length_reverse _
    _ ≤ (t.dropWhile pyIsSpace).reverse.length :=
        (List.dropWhile_suffix pyIsSpace).sublist.length_le
    _ = (t.dropWhile pyIsSpace).length := List.length_reverse _
    _ ≤ t.length := (List.dropWhile_suffix pyIsSpace).sublist.length_le

/-!
## The claims -/

/-- C1, counterexample: on a one-page PDF whose page text is
`"Seite eins"`, the code's extraction returns the raw text plus a bare
newline — not the page-marked, cleaned form the claim describes. -/
theorem pdf_extraction_counterexample :
    extract_text_pdf [str "Seite eins"] = str "Seite eins\n" ∧
    extract_text_pdf_spec [str "Seite eins"] = str "[SEITE 1] Seite eins" ∧
    extract_text_pdf [str "Seite eins"] ≠ extract_text_pdf_spec [str "Seite eins"] :=
  ⟨by decide, by decide, by decide⟩

/-- C1, amended: PDF extraction concatenates each page's raw extracted
text followed by a newline — equivalently the pages joined with single
newlines plus a trailing newline — with no page markers, no hyphenation
or whitespace handling, and empty pages kept. -/
theorem pdf_extraction_raw_concat (pages : List PyStr) (h : pages ≠ []) :
    extract_text_pdf pages = List.intercalate nl pages ++ nl :=
  flatten_map_append_nl pages h

/-- Witness for C1's amended theorem at a concrete three-page input. -/
theorem pdf_extraction_raw_concat_witness :
    ([str "a", str "", str "b"] : List PyStr) ≠ [] ∧
    extract_text_pdf [str "a", str "", str "b"] =
      List.intercalate nl [str "a", str "", str "b"] ++ nl :=
  ⟨by decide, pdf_extraction_raw_concat _ (by decide)⟩

/-- C2, counterexample: a text of 20,001 characters is reported as too
long although its raw length does not exceed 100,000 — the claimed
threshold is wrong. -/
theorem too_long_counterexample :
    str "Text zu lang (maximal 20.000 Zeichen)" ∈
      validate_text_content (List.replicate 20001 'a') ∧
    ¬ 100000 < (List.replicate 20001 'a' : PyStr).length := by
  constructor
  · exact (mem_validate_long _).mpr (by rw [List.length_replicate]; omega)
  · rw [List.length_replicate]; omega

/-- C2, amended: validation reports the too-long issue exactly when the
raw (untrimmed) character length exceeds 20,000. -/
theorem too_long_threshold (t : PyStr) :
    str "Text zu lang (maximal 20.000 Zeichen)" ∈ validate_text_content t ↔
      20000 < t.length :=
  mem_validate_long t

/-- C3, counterexample: the byte `0xFF` is undecodable, and the TXT
branch's strict UTF-8 decode fails on it instead of substituting a
replacement character. -/
theorem txt_decode_counterexample : decodeUtf8 [0xFF] = none := by decide

/-- C3, amended: TXT extraction decodes strictly; an input containing a
byte that can neither begin nor continue a UTF-8 sequence (such as
`0xFF`) makes the decode fail — no substitution happens and no text is
returned. -/
theorem txt_decode_strict (bs : List Nat) (h : 0xFF ∈ bs) : decodeUtf8 bs = none :=
  decodeUtf8_ff h

/-- Witness for C3's amended theorem at a concrete two-byte input. -/
theorem txt_decode_strict_witness :
    (0xFF ∈ [0x61, 0xFF]) ∧ decodeUtf8 [0x61, 0xFF] = none :=
  ⟨by decide, txt_decode_strict _ (by decide)⟩

/-- C4, counterexample: when the evaluation call fails, the payload the
caller receives has an *empty* structure-feedback list (so the lists are
not all non-empty placeholders) and it varies with the error message (so
it is not a fixed payload). -/
theorem evaluation_fallback_counterexample :
    dictFind (analyze_hausarbeit (Except.error (str "x"))) (str "structure_feedback") =
      some (FV.strs []) ∧
    analyze_hausarbeit (Except.error (str "x")) ≠
      analyze_hausarbeit (Except.error (str "y")) :=
  ⟨by decide, by decide⟩

/-- C4, amended: whenever the external evaluation call fails, the result
delivered downstream (never an error) carries all four keys, with the
language list holding the single error message, the structure and
argumentation lists empty, and the fixed summary string. -/
theorem evaluation_fallback_shape (e : PyStr) :
    dictKeys (analyze_hausarbeit (Except.error e)) =
      [str "language_feedback", str "structure_feedback",
       str "argumentation_feedback", str "overall_summary"] ∧
    dictFind (analyze_hausarbeit (Except.error e)) (str "language_feedback") =
      some (FV.strs [str "Analyse fehlgeschlagen: " ++ e]) ∧
    dictFind (analyze_hausarbeit (Except.error e)) (str "structure_feedback") =
      some (FV.strs []) ∧
    dictFind (analyze_hausarbeit (Except.error e)) (str "argumentation_feedback") =
      some (FV.strs []) ∧
    dictFind (analyze_hausarbeit (Except.error e)) (str "overall_summary") =
      some (FV.strv (str "Fehler bei der Analyse")) :=
  ⟨rfl, rfl, rfl, rfl, rfl⟩

/-- C5: the Structurer (modelled from spec §4.2) maps the spec's example
input to exactly the spec's example output; a heading-free line is
prefixed with the sentinel chapter `Unbekannt`, and blank lines are
dropped. -/
theorem structurer_example :
    strukturiere_text (str "1 Einleitung\nHallo Welt\n2.1 Methodik\nText hier") =
      str "[KAPITEL: 1 Einleitung]\n[KAPITEL: 1 Einleitung] Hallo Welt\n[KAPITEL: 2.1 Methodik]\n[KAPITEL: 2.1 Methodik] Text hier" ∧
    strukturiere_text (str "Hallo Welt") = str "[KAPITEL: Unbekannt] Hallo Welt" ∧
    strukturiere_text (str "a\n\n \nb") =
      str "[KAPITEL: Unbekannt] a\n[KAPITEL: Unbekannt] b" :=
  ⟨by decide, by decide, by decide⟩

/-- C6: loading the record under the id returned by saving
`(f, p, false)` yields a record whose feedback field equals `f`, for any
feedback payload, preview and store state. -/
theorem save_load_roundtrip (store : Store) (now_id now_iso : PyStr)
    (f : Feedback) (p : PyStr) :
    (load_result (save_feedback store now_id now_iso f p false).2
        (save_feedback store now_id now_iso f p false).1).map
      (fun r => r.feedback) = some f := by
  simp [save_feedback, load_result, List.find?]

/-- C7, counterexample: in the plain-text render of the stored result
with feedback `["A"] / ["B"] / ["C"] / "D"`, the substring `"A"` does
not occur exactly once — the fixed section headers
(`SPRACHLICHES FEEDBACK`, `ARGUMENTATION`, `ZUSAMMENFASSUNG`, …)
contain the letters A–D as well. -/
theorem render_exact_once_counterexample :
    countOcc (str "A") (export_txt_content sampleRecord) ≠ 1 := by decide

/-- C7, amended: the render of that stored result contains the bulleted
entry lines `"• A"`, `"• B"`, `"• C"` and the summary paragraph `"D"`
(directly under its header) exactly once each and in that relative
order; only the bare letters also occur inside the fixed section
headers. -/
theorem render_once_in_order :
    countOcc (str "• A\n") (export_txt_content sampleRecord) = 1 ∧
    countOcc (str "• B\n") (export_txt_content sampleRecord) = 1 ∧
    countOcc (str "• C\n") (export_txt_content sampleRecord) = 1 ∧
    countOcc (str "ZUSAMMENFASSUNG:\nD") (export_txt_content sampleRecord) = 1 ∧
    firstOccIdx (str "• A\n") (export_txt_content sampleRecord) <
      firstOccIdx (str "• B\n") (export_txt_content sampleRecord) ∧
    firstOccIdx (str "• B\n") (export_txt_content sampleRecord) <
      firstOccIdx (str "• C\n") (export_txt_content sampleRecord) ∧
    firstOccIdx (str "• C\n") (export_txt_content sampleRecord) <
      firstOccIdx (str "ZUSAMMENFASSUNG:\nD") (export_txt_content sampleRecord) := by
  refine ⟨by decide, by decide, by decide, by decide, by decide, by decide, by decide⟩

/-- C8: the three validation rules are independent — each issue is
present exactly when its own condition fires — and every 10-character
single-word text triggers both the short-text and the too-few-words
issue together, which the route joins for display with a semicolon
separator. -/
theorem validation_independent_and_joined :
    (∀ t : PyStr,
      (str "Text zu kurz (mindestens 50 Zeichen erforderlich)" ∈
          validate_text_content t ↔ (t = [] ∨ (pyStrip t).length < 50)) ∧
      (str "Text zu lang (maximal 20.000 Zeichen)" ∈
          validate_text_content t ↔ 20000 < t.length) ∧
      (str "Text enthält zu wenige Wörter für sinnvolle Analyse" ∈
          validate_text_content t ↔ (pySplit t).length < 10)) ∧
    (∀ t : PyStr, t.length = 10 → (pySplit t).length = 1 →
      validate_text_content t =
        [str "Text zu kurz (mindestens 50 Zeichen erforderlich)",
         str "Text enthält zu wenige Wörter für sinnvolle Analyse"] ∧
      validation_error_message (validate_text_content t) =
        str "Textvalidierung fehlgeschlagen: Text zu kurz (mindestens 50 Zeichen erforderlich); Text enthält zu wenige Wörter für sinnvolle Analyse") := by
  constructor
  · intro t
    exact ⟨mem_validate_short t, mem_validate_long t, mem_validate_few t⟩
  · intro t h10 h1w
    have hs : (pyStrip t).length < 50 := by
      have := pyStrip_length_le t
      omega
    have hc1 : t = [] ∨ (pyStrip t).length < 50 := Or.inr hs
    have hc2 : ¬ 20000 < t.length := by omega
    have hc3 : (pySplit t).length < 10 := by omega
    have hv : validate_text_content t =
        [str "Text zu kurz (mindestens 50 Zeichen erforderlich)",
         str "Text enthält zu wenige Wörter für sinnvolle Analyse"] := by
      simp [validate_text_content, hc1, hc2, hc3]
    exact ⟨hv, by rw [hv]; decide⟩

/-- Witness for C8 at the concrete 10-character single word
`"abcdefghij"`. -/
theorem validation_independent_and_joined_witness :
    (str "abcdefghij" : PyStr).length = 10 ∧
    (pySplit (str "abcdefghij")).length = 1 ∧
    validate_text_content (str "abcdefghij") =
      [str "Text zu kurz (mindestens 50 Zeichen erforderlich)",
       str "Text enthält zu wenige Wörter für sinnvolle Analyse"] :=
  ⟨by decide, by decide,
    (validation_independent_and_joined.2 (str "abcdefghij") (by decide) (by decide)).1⟩

/-- C9, counterexample: a document with paragraphs `"a"`, `""`, `"b"`
extracts to `"a\n\nb\n"` — the empty paragraph contributes a bare
newline instead of being skipped, unlike the claimed separator-joined
form `"a\nb"`. -/
theorem docx_extraction_counterexample :
    extract_text_docx [str "a", str "", str "b"] = str "a\n\nb\n" ∧
    extract_text_docx_spec [str "a", str "", str "b"] = str "a\nb" ∧
    extract_text_docx [str "a", str "", str "b"] ≠
      extract_text_docx_spec [str "a", str "", str "b"] :=
  ⟨by decide, by decide, by decide⟩

/-- C9, amended: DOCX extraction returns every paragraph's text followed
by a newline — the paragraphs joined with single newlines plus a
trailing newline — with empty paragraphs kept, each contributing a bare
newline. -/
theorem docx_extraction_keeps_empties (paragraphs : List PyStr)
    (h : paragraphs ≠ []) :
    extract_text_docx paragraphs = List.intercalate nl paragraphs ++ nl :=
  flatten_map_append_nl paragraphs h

/-- Witness for C9's amended theorem at a concrete two-paragraph
input. -/
theorem docx_extraction_keeps_empties_witness :
    ([str "x", str ""] : List PyStr) ≠ [] ∧
    extract_text_docx [str "x", str ""] =
      List.intercalate nl [str "x", str ""] ++ nl :=
  ⟨by decide, docx_extraction_keeps_empties _ (by decide)⟩

/-- C10: after the analyze route saves, the persisted record's
`text_length` equals the stored preview's length, which is
`min 200 len(text)`; the JSON response instead reports the full text's
length; hence the two differ for every text longer than 200
characters. -/
theorem stored_vs_reported_text_length (store : Store)
    (now_id now_iso now_iso2 : PyStr) (text : PyStr) (fb : Feedback) (fu : Bool) :
    ((load_result (analyze_respond store now_id now_iso now_iso2 text fb fu).2
        (analyze_respond store now_id now_iso now_iso2 text fb fu).1.result_id).map
      (fun r => r.text_length) = some (min 200 text.length)) ∧
    ((load_result (analyze_respond store now_id now_iso now_iso2 text fb fu).2
        (analyze_respond store now_id now_iso now_iso2 text fb fu).1.result_id).map
      (fun r => r.text_length) =
     (load_result (analyze_respond store now_id now_iso now_iso2 text fb fu).2
        (analyze_respond store now_id now_iso now_iso2 text fb fu).1.result_id).map
      (fun r => r.text_preview.length)) ∧
    ((analyze_respond store now_id now_iso now_iso2 text fb fu).1.text_length =
      text.length) ∧
    (200 < text.length →
      (load_result (analyze_respond store now_id now_iso now_iso2 text fb fu).2
          (analyze_respond store now_id now_iso now_iso2 text fb fu).1.result_id).map
        (fun r => r.text_length) ≠
      some ((analyze_respond store now_id now_iso now_iso2 text fb fu).1.text_length)) := by
  refine ⟨?_, ?_, rfl, ?_⟩
  · simp [analyze_respond, save_feedback, load_result, List.find?, List.length_take]
  · simp [analyze_respond, save_feedback, load_result, List.find?]
  · intro h
    simp only [analyze_respond, save_feedback, load_result, List.find?]
    simp [List.length_take]
    omega

/-- Witness for C10's difference at a concrete 201-character text. -/
theorem stored_vs_reported_text_length_witness :
    200 < (List.replicate 201 'x' : PyStr).length ∧
    (load_result
        (analyze_respond [] (str "id") (str "t") (str "t2")
          (List.replicate 201 'x') [] false).2
        (analyze_respond [] (str "id") (str "t") (str "t2")
          (List.replicate 201 'x') [] false).1.result_id).map
      (fun r => r.text_length) ≠
    some ((analyze_respond [] (str "id") (str "t") (str "t2")
        (List.replicate 201 'x') [] false).1.text_length) :=
  ⟨by rw [List.length_replicate]; omega,
    (stored_vs_reported_text_length [] (str "id") (str "t") (str "t2")
      (List.replicate 201 'x') [] false).2.2.2
      (by rw [List.length_replicate]; omega)⟩
